import Mathlib

/-!
Verification of the Proxly browser-extension core logic: the link-capture
decision procedure, the context-menu forwarding path, the settings
store/validation code of the three platform variants, the TOGGLE_EXTENSION
handler, the bounded ancestor walk that resolves a clicked element to an
anchor, and the base64 forwarding-URI encoding.

The JavaScript (and Swift) sources are embedded shallowly: each method
becomes a Lean function over explicit records of the fields the code reads.
Browser URL parsing (the WHATWG URL constructor) is external to the
repository and is modelled as a function parameter of type
String to Option URLRec.
-/

/-- A parsed URL as returned by the browser URL constructor; only the two
fields the extension code ever reads (url.protocol and url.origin). -/
structure URLRec where
  protocol : String
  origin : String
deriving DecidableEq

/-- The facts the content script reads from a clicked anchor element:
whether it carries an explicit href attribute (anchor.hasAttribute in the
source), the resolved href property string (anchor.href), and whether it
carries a download attribute. -/
structure Anchor where
  hasHrefAttr : Bool
  href : String
  hasDownloadAttr : Bool

/-- In-memory settings record of a content-script context, mirroring
this.settings of ProxlyContentScript (no version field). -/
structure CSettings where
  linkMode : String
  enabled : Bool
  visualFeedback : Bool
  soundFeedback : Bool
deriving DecidableEq

/-- JavaScript String.prototype.toLowerCase, modelled characterwise (the
prefixes the extension compares against are all ASCII). -/
def strLower (s : String) : String := String.mk (s.toList.map Char.toLower)

/-- JavaScript String.prototype.startsWith, modelled on the character
lists of the two strings. -/
def strStartsWith (s pre : String) : Bool := pre.toList.isPrefixOf s.toList

/-- ProxlyContentScript.shouldCaptureLink from the universal content script
(src/unnamed/part_000 lines 220-287) and the Safari content script
(content.js lines 230-306), whose decision logic is identical.
The resolve parameter stands for the browser URL constructor applied with
document.baseURI as base; pageOrigin stands for the origin of
window.location.href. A parse failure in the all-links branch is caught in
the source and yields false, modelled by the none case. -/
def shouldCaptureLink (resolve : String → Option URLRec) (a : Anchor)
    (s : CSettings) (pageOrigin : String) : Bool :=
  if !a.hasHrefAttr then false
  else
    let href := strLower a.href
    if strStartsWith href "javascript:" || strStartsWith href "mailto:" || strStartsWith href "tel:" then
      false
    else if strStartsWith href "#" then false
    else if a.hasDownloadAttr then false
    else if !s.enabled then false
    else if s.linkMode == "all" then
      match resolve a.href with
      | some linkUrl => linkUrl.origin != pageOrigin
      | none => false
    else if s.linkMode == "context" then false
    else false

/-- isValidUrl, identical in every variant: the URL string must parse and
its protocol must be exactly http or https. The parse parameter stands for
the browser URL constructor with no base (absolute parse); a parse failure
is caught in the source and yields false. -/
def isValidUrl (parse : String → Option URLRec) (urlString : String) : Bool :=
  match parse urlString with
  | some url => url.protocol == "http:" || url.protocol == "https:"
  | none => false

/-- The info object given to the context-menu click handler. -/
structure MenuInfo where
  menuItemId : String
  linkUrl : Option String

/-- Whether ProxlyBackground.handleContextMenuClick (firefox/background.js
lines 83-103, identical in the Safari background) invokes the Forwarder:
the menu item must match, info.linkUrl must be truthy (present and
non-empty), and the URL must pass isValidUrl. Note the handler reads no
settings at all. -/
def contextMenuForwards (parse : String → Option URLRec) (info : MenuInfo) : Bool :=
  if info.menuItemId != "proxly-open-url" then false
  else
    match info.linkUrl with
    | none => false
    | some u => if u == "" then false else isValidUrl parse u

/-- The feedback channels exercised by
ProxlyContentScript.showCaptureFeedback (src/unnamed/part_000 lines
351-366): the screen-reader announcement is unconditional, the visual
indicator is gated by settings.visualFeedback, the tone by
settings.soundFeedback. -/
structure CaptureFeedback where
  announced : Bool
  visual : Bool
  sound : Bool
deriving DecidableEq

/-- ProxlyContentScript.showCaptureFeedback as the set of feedback channels
it fires for given settings. -/
def showCaptureFeedback (s : CSettings) : CaptureFeedback :=
  { announced := true, visual := s.visualFeedback, sound := s.soundFeedback }

/-- Helper: with enabled set to false every branch of shouldCaptureLink
returns false. -/
lemma shouldCaptureLink_enabled_false (resolve : String → Option URLRec) (a : Anchor)
    (lm : String) (vf sf : Bool) (p : String) :
    shouldCaptureLink resolve a ⟨lm, false, vf, sf⟩ p = false := by
  simp [shouldCaptureLink]

/-- C1: for every anchor, page origin, and values of the other settings
fields, shouldCaptureLink with settings.enabled = false returns false. -/
theorem shouldCaptureLink_disabled_false (resolve : String → Option URLRec) (a : Anchor)
    (lm : String) (vf sf : Bool) (p : String) :
    shouldCaptureLink resolve a ⟨lm, false, vf, sf⟩ p = false :=
  shouldCaptureLink_enabled_false resolve a lm vf sf p

/-- C10: the result of shouldCaptureLink is independent of the
visualFeedback and soundFeedback settings fields; those fields gate only
the feedback channels fired by showCaptureFeedback after a positive
decision (the visual indicator and the tone respectively). -/
theorem shouldCaptureLink_independent_of_feedback (resolve : String → Option URLRec)
    (a : Anchor) (lm : String) (en vf sf vf2 sf2 : Bool) (p : String) :
    shouldCaptureLink resolve a ⟨lm, en, vf, sf⟩ p
      = shouldCaptureLink resolve a ⟨lm, en, vf2, sf2⟩ p
    ∧ showCaptureFeedback ⟨lm, en, vf, sf⟩ = ⟨true, vf, sf⟩ := by
  exact ⟨rfl, rfl⟩

/-- C2: with enabled = true and linkMode all, for an anchor with an
explicit href attribute, none of the rejected href shapes, no download
attribute, and a resolved URL of scheme http or https, shouldCaptureLink
returns true exactly when the resolved origin differs from the page
origin. -/
theorem shouldCaptureLink_all_iff_cross_origin (resolve : String → Option URLRec)
    (a : Anchor) (u : URLRec) (vf sf : Bool) (p : String)
    (h1 : a.hasHrefAttr = true)
    (h2 : strStartsWith (strLower a.href) "javascript:" = false)
    (h3 : strStartsWith (strLower a.href) "mailto:" = false)
    (h4 : strStartsWith (strLower a.href) "tel:" = false)
    (h5 : strStartsWith (strLower a.href) "#" = false)
    (h6 : a.hasDownloadAttr = false)
    (h7 : resolve a.href = some u)
    (_h8 : u.protocol = "http:" ∨ u.protocol = "https:") :
    shouldCaptureLink resolve a ⟨"all", true, vf, sf⟩ p = (u.origin != p) := by
  simp [shouldCaptureLink, h1, h2, h3, h4, h5, h6, h7]

/-- Witness for C2: the cross-origin anchor of the spec scenario is
captured on page origin https://site.test. -/
theorem shouldCaptureLink_all_iff_cross_origin_witness :
    shouldCaptureLink
      (fun s => if s == "https://other.example/x" then some ⟨"https:", "https://other.example"⟩ else none)
      ⟨true, "https://other.example/x", false⟩
      ⟨"all", true, true, false⟩ "https://site.test" = true :=
  (shouldCaptureLink_all_iff_cross_origin
      (fun s => if s == "https://other.example/x" then some ⟨"https:", "https://other.example"⟩ else none)
      ⟨true, "https://other.example/x", false⟩
      ⟨"https:", "https://other.example"⟩ true false "https://site.test"
      (by decide) (by decide) (by decide) (by decide) (by decide) (by decide)
      (by decide) (Or.inr rfl)).trans (by decide)

/-- C3: with linkMode context a direct click is never captured, whatever
the anchor, the other settings and the page origin; the explicit
context-menu path for a (truthy) link URL forwards exactly when the URL
passes the http/https validity check, independent of every setting. -/
theorem contextMode_click_vs_menu (resolve parse : String → Option URLRec)
    (a : Anchor) (en vf sf : Bool) (p : String) (u : String) (hu : u ≠ "") :
    shouldCaptureLink resolve a ⟨"context", en, vf, sf⟩ p = false
    ∧ contextMenuForwards parse ⟨"proxly-open-url", some u⟩ = isValidUrl parse u := by
  constructor
  · simp [shouldCaptureLink]
  · simp [contextMenuForwards, hu]

/-- Witness for C3: a cross-origin http link is not captured by a direct
click in context mode, yet the context-menu path forwards it. -/
theorem contextMode_click_vs_menu_witness :
    shouldCaptureLink (fun _ => some ⟨"http:", "http://other.example"⟩)
        ⟨true, "http://other.example/x", false⟩ ⟨"context", true, true, false⟩
        "https://site.test" = false
    ∧ contextMenuForwards (fun _ => some ⟨"http:", "http://other.example"⟩)
        ⟨"proxly-open-url", some "http://other.example/x"⟩
      = isValidUrl (fun _ => some ⟨"http:", "http://other.example"⟩) "http://other.example/x" :=
  contextMode_click_vs_menu (fun _ => some ⟨"http:", "http://other.example"⟩)
    (fun _ => some ⟨"http:", "http://other.example"⟩)
    ⟨true, "http://other.example/x", false⟩ true true false
    "https://site.test" "http://other.example/x" (by decide)

/-- A persisted settings record in the synchronized key-value store, and
equally a plain settings object handed to the managers: each field is
either present (some) or absent (none / undefined). -/
structure StoredSettings where
  linkMode : Option String
  enabled : Option Bool
  visualFeedback : Option Bool
  soundFeedback : Option Bool
  version : Option String
deriving DecidableEq

/-- The empty store (nothing persisted yet). -/
def emptyStore : StoredSettings := ⟨none, none, none, none, none⟩

/-- The default record documented by the spec data model. -/
def documentedDefaults : StoredSettings :=
  ⟨some "all", some true, some true, some false, some "1.0.0"⟩

/-- Field-wise merge: keys present in upd override base, absent keys keep
the base value. This is both the object spread of two settings objects and
the effect of storage.sync.set(upd) on a store holding base. -/
def mergeStored (base upd : StoredSettings) : StoredSettings where
  linkMode := match upd.linkMode with | some v => some v | none => base.linkMode
  enabled := match upd.enabled with | some v => some v | none => base.enabled
  visualFeedback := match upd.visualFeedback with | some v => some v | none => base.visualFeedback
  soundFeedback := match upd.soundFeedback with | some v => some v | none => base.soundFeedback
  version := match upd.version with | some v => some v | none => base.version

/-- JavaScript x or-else d on an optional string field (the pattern
result.field two-pipes default in the loaders): undefined and the empty
string are falsy and yield the default. -/
def jsOrStr (o : Option String) (d : String) : String :=
  match o with
  | some s => if s == "" then d else s
  | none => d

/-- A fully populated settings record, as built by the background
loadSettings of Firefox and Safari (all five fields defined). -/
structure FullSettings where
  linkMode : String
  enabled : Bool
  visualFeedback : Bool
  soundFeedback : Bool
  version : String
deriving DecidableEq

/-- ProxlyBackground.loadSettings of firefox/background.js (lines 211-235)
and of the Safari background.js (lines 297-321), which are identical:
each missing field is filled from the built-in default. The catch branch
returns the same record as loading from an empty store. -/
def backgroundLoadSettings (result : StoredSettings) : FullSettings where
  linkMode := jsOrStr result.linkMode "all"
  enabled := result.enabled.getD true
  visualFeedback := result.visualFeedback.getD true
  soundFeedback := result.soundFeedback.getD false
  version := jsOrStr result.version "1.0.0"

/-- ProxlyContentScript.loadSettings storage path (src/unnamed/part_000
lines 65-104 and the Safari content.js), which builds a four-field record
with no version. -/
def contentLoadSettings (result : StoredSettings) : CSettings where
  linkMode := jsOrStr result.linkMode "all"
  enabled := result.enabled.getD true
  visualFeedback := result.visualFeedback.getD true
  soundFeedback := result.soundFeedback.getD false

/-- this.defaultSettings of the Chrome SettingsManager
(src/chrome/shared/settings-manager.js lines 8-13): note linkMode alt and
no enabled field at all. -/
def chromeDefaultSettings : StoredSettings :=
  ⟨some "alt", none, some true, some false, some "1.0.0"⟩

/-- SettingsManager.loadSettings of the Chrome manager (lines 20-28): the
spread of the stored record over the manager defaults. The catch branch
returns the defaults, the same record as loading from an empty store. -/
def chromeLoadSettings (result : StoredSettings) : StoredSettings :=
  mergeStored chromeDefaultSettings result

/-- this.defaultSettings of the Safari SettingsManager
(src/unnamed/part_002 lines 8-15). -/
def safariDefaultSettings : StoredSettings :=
  ⟨some "all", some true, some true, some false, some "1.0.0"⟩

/-- SettingsManager.loadSettings of the Safari manager
(src/unnamed/part_002 lines 21-29). -/
def safariManagerLoadSettings (result : StoredSettings) : StoredSettings :=
  mergeStored safariDefaultSettings result

/-- SettingsManager.validateSettings of the Chrome manager
(src/chrome/shared/settings-manager.js lines 63-76): starts from the
manager defaults (which carry no enabled key), keeps the input linkMode
only when it is all or alt, and coerces the two feedback flags to
booleans (an absent flag becomes false). The input enabled and version are
never copied. -/
def chromeValidateSettings (settings : StoredSettings) : StoredSettings where
  linkMode := some (match settings.linkMode with
    | some m => if m == "all" || m == "alt" then m else "alt"
    | none => "alt")
  enabled := none
  visualFeedback := some (settings.visualFeedback.getD false)
  soundFeedback := some (settings.soundFeedback.getD false)
  version := some "1.0.0"

/-- SettingsManager.validateSettings of the Safari manager
(src/unnamed/part_002 lines 64-83): keeps the input linkMode only when it
is all or context, coerces enabled and the feedback flags to booleans, and
keeps a truthy input version. -/
def safariValidateSettings (settings : StoredSettings) : StoredSettings where
  linkMode := some (match settings.linkMode with
    | some m => if m == "all" || m == "context" then m else "all"
    | none => "all")
  enabled := some (settings.enabled.getD false)
  visualFeedback := some (settings.visualFeedback.getD false)
  soundFeedback := some (settings.soundFeedback.getD false)
  version := some (jsOrStr settings.version "1.0.0")

/-- SettingsManager.saveSettings of the Chrome manager (lines 35-48):
validate, then write the validated object into the store. -/
def chromeSaveSettings (store input : StoredSettings) : StoredSettings :=
  mergeStored store (chromeValidateSettings input)

/-- SettingsManager.saveSettings of the Safari manager
(src/unnamed/part_002 lines 36-49). -/
def safariSaveSettings (store input : StoredSettings) : StoredSettings :=
  mergeStored store (safariValidateSettings input)

/-- Counterexample to C5: the Chrome settings manager loaded from an empty
store does not yield the documented default record (its linkMode is alt
and it has no enabled field). -/
theorem chromeLoadSettings_empty_not_documented :
    ¬ (chromeLoadSettings emptyStore = documentedDefaults) := by decide

/-- C5 amended: loading from an empty store yields the documented default
record for the Firefox and Safari background loaders and for the Safari
settings manager; the content scripts yield the defaults without a version
field; the Chrome settings manager instead yields its own defaults, with
linkMode alt and no enabled field. -/
theorem loadSettings_empty_store_defaults :
    backgroundLoadSettings emptyStore = ⟨"all", true, true, false, "1.0.0"⟩
    ∧ safariManagerLoadSettings emptyStore = documentedDefaults
    ∧ contentLoadSettings emptyStore = ⟨"all", true, true, false⟩
    ∧ chromeLoadSettings emptyStore = chromeDefaultSettings := by
  refine ⟨rfl, by decide, rfl, by decide⟩

/-- Counterexample to C6: saving a record with linkMode bogus through the
Chrome settings manager does not preserve the input enabled and version
fields in the stored record (enabled is dropped, version is reset). -/
theorem chromeSaveSettings_bogus_cex :
    ¬ ((chromeSaveSettings emptyStore ⟨some "bogus", some false, some true, some true, some "2.0.0"⟩).version
          = some "2.0.0"
        ∧ (chromeSaveSettings emptyStore ⟨some "bogus", some false, some true, some true, some "2.0.0"⟩).enabled
          = some false) := by decide

/-- C6 amended: saving a record whose linkMode is not a recognized enum
value through the Safari settings manager stores the default linkMode all
while the enabled flag, the feedback booleans and a non-empty version are
preserved; through the Chrome manager linkMode falls back to its default
alt and the feedback booleans are preserved, but the input enabled is
discarded (the store keeps its previous value) and version is reset to
1.0.0. -/
theorem saveSettings_invalid_linkMode (st : StoredSettings) (badMode : String)
    (en vf sf : Bool) (v : String)
    (hAll : badMode ≠ "all") (hCtx : badMode ≠ "context") (hAlt : badMode ≠ "alt")
    (hv : v ≠ "") :
    safariSaveSettings st ⟨some badMode, some en, some vf, some sf, some v⟩
      = ⟨some "all", some en, some vf, some sf, some v⟩
    ∧ chromeSaveSettings st ⟨some badMode, some en, some vf, some sf, some v⟩
      = ⟨some "alt", st.enabled, some vf, some sf, some "1.0.0"⟩ := by
  constructor
  · simp [safariSaveSettings, safariValidateSettings, mergeStored, jsOrStr, hAll, hCtx, hv]
  · simp [chromeSaveSettings, chromeValidateSettings, mergeStored, hAll, hAlt]

/-- Witness for C6 amended: saving linkMode bogus with enabled false, both
feedback flags true, and version 2.0.0 into an empty store. -/
theorem saveSettings_invalid_linkMode_witness :
    safariSaveSettings emptyStore ⟨some "bogus", some false, some true, some true, some "2.0.0"⟩
      = ⟨some "all", some false, some true, some true, some "2.0.0"⟩
    ∧ chromeSaveSettings emptyStore ⟨some "bogus", some false, some true, some true, some "2.0.0"⟩
      = ⟨some "alt", emptyStore.enabled, some true, some true, some "1.0.0"⟩ :=
  saveSettings_invalid_linkMode emptyStore "bogus" false true true "2.0.0"
    (by decide) (by decide) (by decide) (by decide)

/-- C9: the Chrome validateSettings output defines exactly the four fields
linkMode, visualFeedback, soundFeedback and version; enabled is absent,
hence a full-record save through this manager leaves the stored enabled
value unchanged. -/
theorem chromeValidateSettings_frame (s store : StoredSettings) :
    (chromeValidateSettings s).linkMode.isSome = true
    ∧ (chromeValidateSettings s).visualFeedback.isSome = true
    ∧ (chromeValidateSettings s).soundFeedback.isSome = true
    ∧ (chromeValidateSettings s).version.isSome = true
    ∧ (chromeValidateSettings s).enabled = none
    ∧ (chromeSaveSettings store s).enabled = store.enabled := by
  refine ⟨rfl, rfl, rfl, rfl, rfl, rfl⟩

/-- A TOGGLE_EXTENSION message, possibly carrying an enabled field. -/
structure ToggleMsg where
  enabled : Option Bool

/-- What a TOGGLE_EXTENSION handler produces: the new in-memory enabled
flag, the store after the targeted write, and the enabled value of the
response object. -/
structure ToggleOutcome where
  settingsEnabled : Bool
  storeAfter : StoredSettings
  responseEnabled : Bool
deriving DecidableEq

/-- The TOGGLE_EXTENSION branch of ProxlyBackground.handleRuntimeMessage in
firefox/background.js (lines 136-141): the new state is always the
negation of the current one — the message content is ignored — and it is
written to the store as a single enabled key and echoed in the response. -/
def firefoxHandleToggle (curEnabled : Bool) (_msg : ToggleMsg)
    (store : StoredSettings) : ToggleOutcome :=
  let newState := !curEnabled
  ⟨newState, mergeStored store ⟨none, some newState, none, none, none⟩, newState⟩

/-- The TOGGLE_EXTENSION branch of the Safari background handleRuntimeMessage
(background.js lines 188-193): the new state is the carried enabled value
when present, otherwise the negation of the current one. -/
def safariHandleToggle (curEnabled : Bool) (msg : ToggleMsg)
    (store : StoredSettings) : ToggleOutcome :=
  let newState := match msg.enabled with | some b => b | none => !curEnabled
  ⟨newState, mergeStored store ⟨none, some newState, none, none, none⟩, newState⟩

/-- Counterexample to C7: the Firefox TOGGLE_EXTENSION handler does not set
the flag to the carried value — a message carrying enabled true on current
state true responds with enabled false, not true. -/
theorem firefoxToggle_ignores_carried_enabled :
    ¬ ((firefoxHandleToggle true ⟨some true⟩ emptyStore).responseEnabled = true) := by
  decide

/-- C7 amended: the Safari TOGGLE_EXTENSION handler flips the current
enabled flag when the message carries no enabled field and sets it to the
carried value when it does; the Firefox handler always flips, ignoring any
carried value. Both persist the new value as the single enabled key and
respond with it. In particular a toggle with no enabled field on current
state true persists enabled false, and shouldCaptureLink under the
resulting flag returns false for every link. -/
theorem toggleExtension_behavior (cur b : Bool) (msg : ToggleMsg) (store : StoredSettings) :
    (safariHandleToggle cur ⟨none⟩ store).responseEnabled = !cur
    ∧ (safariHandleToggle cur ⟨some b⟩ store).responseEnabled = b
    ∧ (firefoxHandleToggle cur msg store).responseEnabled = !cur
    ∧ (firefoxHandleToggle cur msg store).storeAfter.enabled
        = some ((firefoxHandleToggle cur msg store).responseEnabled)
    ∧ (safariHandleToggle cur msg store).storeAfter.enabled
        = some ((safariHandleToggle cur msg store).responseEnabled)
    ∧ (firefoxHandleToggle true ⟨none⟩ store).storeAfter.enabled = some false
    ∧ ∀ (resolve : String → Option URLRec) (a : Anchor) (lm : String) (vf sf : Bool) (p : String),
        shouldCaptureLink resolve a
          ⟨lm, (firefoxHandleToggle true ⟨none⟩ store).responseEnabled, vf, sf⟩ p = false := by
  refine ⟨rfl, rfl, rfl, rfl, rfl, rfl, ?_⟩
  intro resolve a lm vf sf p
  exact shouldCaptureLink_enabled_false resolve a lm vf sf p

/-- A DOM node as seen by the ancestor walk of findLinkElement: its tagName
and its parent chain; root stands for a node whose parentNode is null. -/
inductive DomElem where
  | root (tag : String)
  | node (tag : String) (parent : DomElem)
deriving DecidableEq

/-- The tagName property of a node. -/
def domTag : DomElem → String
  | .root t => t
  | .node t _ => t

/-- The parentNode property of a node. -/
def domParent : DomElem → Option DomElem
  | .root _ => none
  | .node _ p => some p

/-- The anchor test of the walk body: current.tagName is truthy and
lowercases to a. -/
def isAnchorElem (e : DomElem) : Bool :=
  !(domTag e == "") && (strLower (domTag e) == "a")

/-- The while loop of ProxlyContentScript.findLinkElement
(src/unnamed/part_000 lines 204-218 and the Safari content.js lines
214-228): loop while the current node exists, has a parentNode, and the
depth counter is below maxDepth 5; inside, an anchor tag returns the
current node, otherwise the walk moves to the parent with depth + 1. -/
def findFrom : DomElem → Nat → Option DomElem
  | DomElem.root _, _ => none
  | DomElem.node t p, depth =>
    if depth < 5 then
      if isAnchorElem (DomElem.node t p) then some (DomElem.node t p)
      else findFrom p (depth + 1)
    else none

/-- ProxlyContentScript.findLinkElement: the walk started at the clicked
element with depth 0. -/
def findLinkElement (e : DomElem) : Option DomElem := findFrom e 0

/-- The element followed by its ancestors, nearest first. -/
def ancestorChain : DomElem → List DomElem
  | DomElem.root t => [DomElem.root t]
  | DomElem.node t p => DomElem.node t p :: ancestorChain p

/-- Helper: anything the walk returns lies among the first 5 - d nodes of
the chain. -/
lemma findFrom_mem_take (e : DomElem) :
    ∀ d a, findFrom e d = some a → a ∈ (ancestorChain e).take (5 - d) := by
  induction e with
  | root t => intro d a h; simp [findFrom] at h
  | node t p ih =>
    intro d a h
    rw [findFrom] at h
    by_cases hd : d < 5
    · rw [if_pos hd] at h
      have h5 : 5 - d = (4 - d) + 1 := by omega
      by_cases ha : isAnchorElem (DomElem.node t p)
      · rw [if_pos ha, Option.some.injEq] at h
        subst h
        rw [ancestorChain, h5, List.take_succ_cons]
        exact List.mem_cons_self _ _
      · rw [if_neg ha] at h
        have hm := ih (d + 1) a h
        have h4 : 5 - (d + 1) = 4 - d := by omega
        rw [h4] at hm
        rw [ancestorChain, h5, List.take_succ_cons]
        exact List.mem_cons_of_mem _ hm
    · rw [if_neg hd] at h
      exact absurd h (by simp)

/-- Helper: when no node among the first 5 - d of the chain is an anchor,
the walk returns none. -/
lemma findFrom_none_of_no_anchor (e : DomElem) :
    ∀ d, (((ancestorChain e).take (5 - d)).all fun x => !isAnchorElem x) = true →
      findFrom e d = none := by
  induction e with
  | root t => intro d _; rw [findFrom]
  | node t p ih =>
    intro d hall
    rw [findFrom]
    by_cases hd : d < 5
    · have h5 : 5 - d = (4 - d) + 1 := by omega
      rw [ancestorChain, h5, List.take_succ_cons, List.all_cons, Bool.and_eq_true] at hall
      have ha : isAnchorElem (DomElem.node t p) = false := by
        rcases hall with ⟨h1, _⟩
        simpa using h1
      rw [if_pos hd, ha, if_neg (by simp)]
      have h4 : 5 - (d + 1) = 4 - d := by omega
      exact ih (d + 1) (by rw [h4]; exact hall.2)
    · rw [if_neg hd]

/-- Helper: when the first anchor of the chain sits at an index below
5 - d and has a parent node, the walk returns it. -/
lemma findFrom_finds_first_anchor (e : DomElem) :
    ∀ d i a, (ancestorChain e).findIdx? isAnchorElem = some i → i < 5 - d →
      (ancestorChain e)[i]? = some a → domParent a ≠ none →
      findFrom e d = some a := by
  induction e with
  | root t =>
    intro d i a hidx hlt hget hpar
    rw [ancestorChain] at hidx hget
    by_cases ha : isAnchorElem (DomElem.root t)
    · simp [List.findIdx?, ha] at hidx
      subst hidx
      simp at hget
      subst hget
      exact absurd rfl hpar
    · simp [List.findIdx?, ha] at hidx
  | node t p ih =>
    intro d i a hidx hlt hget hpar
    have hd : d < 5 := by omega
    by_cases ha : isAnchorElem (DomElem.node t p)
    · rw [ancestorChain, List.findIdx?_cons, if_pos ha] at hidx
      have hi0 : i = 0 := by simpa using hidx.symm
      subst hi0
      rw [ancestorChain] at hget
      simp at hget
      rw [findFrom, if_pos hd, if_pos ha, hget]
    · rw [ancestorChain, List.findIdx?_cons, if_neg (by simp [ha]), List.findIdx?_succ] at hidx
      rcases Option.map_eq_some'.mp hidx with ⟨j, hj, hji⟩
      subst hji
      rw [ancestorChain] at hget
      rw [List.getElem?_cons_succ] at hget
      rw [findFrom, if_pos hd, if_neg (by simp [ha])]
      exact ih (d + 1) j a hj (by omega) hget hpar

/-- Counterexample to C8: an anchor whose parentNode is null is the
nearest anchor at level 0, well within the limit of 5, yet the walk
returns none, because the loop condition also requires a parent node. -/
theorem findLinkElement_root_anchor_missed :
    findLinkElement (DomElem.root "A") = none
    ∧ (ancestorChain (DomElem.root "A")).findIdx? isAnchorElem = some 0 := by
  decide

/-- C8 amended: the walk always terminates and any returned node lies among
the clicked element and its first four ancestors; when none of those five
nodes is an anchor the walk returns none; and when the nearest anchor sits
at a level below 5 and has a parent node, the walk returns exactly that
anchor (a parentless anchor is missed, since the loop also requires a
parent node). -/
theorem findLinkElement_bounded_walk (e : DomElem) :
    (∀ a, findLinkElement e = some a → a ∈ (ancestorChain e).take 5)
    ∧ ((((ancestorChain e).take 5).all fun x => !isAnchorElem x) = true →
        findLinkElement e = none)
    ∧ (∀ i a, (ancestorChain e).findIdx? isAnchorElem = some i → i < 5 →
        (ancestorChain e)[i]? = some a → domParent a ≠ none →
        findLinkElement e = some a) := by
  refine ⟨fun a h => ?_, fun h => ?_, fun i a h1 h2 h3 h4 => ?_⟩
  · simpa using findFrom_mem_take e 0 a h
  · exact findFrom_none_of_no_anchor e 0 (by simpa using h)
  · exact findFrom_finds_first_anchor e 0 i a h1 (by omega) h3 h4

/-- Witness for C8 amended: a span nested in an anchor nested in a div in
the body resolves to the enclosing anchor. -/
theorem findLinkElement_bounded_walk_witness :
    findLinkElement
        (DomElem.node "SPAN" (DomElem.node "A" (DomElem.node "DIV" (DomElem.root "BODY"))))
      = some (DomElem.node "A" (DomElem.node "DIV" (DomElem.root "BODY"))) :=
  (findLinkElement_bounded_walk
      (DomElem.node "SPAN" (DomElem.node "A" (DomElem.node "DIV" (DomElem.root "BODY"))))).2.2
    1 (DomElem.node "A" (DomElem.node "DIV" (DomElem.root "BODY")))
    (by decide) (by decide) (by decide) (by decide)

/-- The standard base64 alphabet, used both by btoa in the JavaScript
forwarders and by Data.base64EncodedString in the Swift handler. -/
def b64Chars : List Char :=
  "ABCDEFGHIJKLMNOPQRSTUVWXYZabcdefghijklmnopqrstuvwxyz0123456789+/".toList

/-- The alphabet character of a sextet. -/
def b64Enc (n : Nat) : Char := b64Chars.getD n 'A'

/-- The sextet of an alphabet character, none for anything outside the
alphabet (in particular for the padding character). -/
def b64Dec (c : Char) : Option Nat := b64Chars.findIdx? fun x => x == c

/-- Standard base64 encoding of a byte sequence, three bytes to four
characters, padded with one or two = characters at the end. -/
def b64EncodeBytes : List Nat → List Char
  | [] => []
  | [a] => [b64Enc (a / 4), b64Enc (a % 4 * 16), '=', '=']
  | [a, b] => [b64Enc (a / 4), b64Enc (a % 4 * 16 + b / 16), b64Enc (b % 16 * 4), '=']
  | a :: b :: c :: rest =>
      b64Enc (a / 4) :: b64Enc (a % 4 * 16 + b / 16) :: b64Enc (b % 16 * 4 + c / 64)
        :: b64Enc (c % 64) :: b64EncodeBytes rest

/-- Standard base64 decoding of a character sequence back to bytes, as the
external receiver applies to the b64 segment: four characters to three
bytes, with = padding accepted only at the very end. -/
def b64DecodeChars : List Char → Option (List Nat)
  | [] => some []
  | c1 :: c2 :: c3 :: c4 :: rest =>
    match b64Dec c1, b64Dec c2 with
    | some a, some b =>
      match b64Dec c3 with
      | some c =>
        match b64Dec c4 with
        | some d =>
          match b64DecodeChars rest with
          | some tail =>
              some ((a * 4 + b / 16) :: (b % 16 * 16 + c / 4) :: (c % 4 * 64 + d) :: tail)
          | none => none
        | none =>
          if c4 = '=' ∧ rest = [] then some [a * 4 + b / 16, b % 16 * 16 + c / 4] else none
      | none =>
        if c3 = '=' ∧ c4 = '=' ∧ rest = [] then some [a * 4 + b / 16] else none
    | _, _ => none
  | _ => none

/-- btoa on the byte sequence of its argument (for the ASCII strings the
URL serializer produces, the code units coincide with the UTF-8 bytes that
the Swift encoder uses). -/
def btoaBytes (bytes : List Nat) : String := String.mk (b64EncodeBytes bytes)

/-- The forwarding URI built by forwardToProxlyDirect (src/unnamed/part_000
lines 334-349), forwardToProxly (firefox/background.js lines 237-255) and
handleForwardUrl (SafariWebExtensionHandler.swift): the literal
proxly://open/ followed by the standard base64 of the URL bytes. -/
def forwardUri (urlBytes : List Nat) : String := "proxly://open/" ++ btoaBytes urlBytes

/-- The b64 segment of a forwarding URI: the characters after the
fourteen-character prefix proxly://open/. -/
def forwardUriSegment (uri : String) : List Char := uri.toList.drop 14

/-- Helper: the padding character is outside the base64 alphabet. -/
lemma b64Dec_pad : b64Dec '=' = none := by decide

/-- Helper: decoding inverts the alphabet on every sextet. -/
lemma b64Dec_b64Enc (n : Nat) (h : n < 64) : b64Dec (b64Enc n) = some n := by
  interval_cases n <;> rfl

/-- Helper: base64 decoding inverts base64 encoding on byte sequences. -/
lemma b64DecodeChars_b64EncodeBytes :
    ∀ bs : List Nat, (∀ b ∈ bs, b < 256) →
      b64DecodeChars (b64EncodeBytes bs) = some bs
  | [], _ => rfl
  | [a], h => by
    have ha : a < 256 := h a (by simp)
    simp only [b64EncodeBytes, b64DecodeChars]
    rw [b64Dec_b64Enc (a / 4) (by omega), b64Dec_b64Enc (a % 4 * 16) (by omega), b64Dec_pad]
    simp only [Option.some.injEq, List.cons.injEq, and_true]
    norm_num
    omega
  | [a, b], h => by
    have ha : a < 256 := h a (by simp)
    have hb : b < 256 := h b (by simp)
    simp only [b64EncodeBytes, b64DecodeChars]
    rw [b64Dec_b64Enc (a / 4) (by omega), b64Dec_b64Enc (a % 4 * 16 + b / 16) (by omega),
      b64Dec_b64Enc (b % 16 * 4) (by omega), b64Dec_pad]
    simp only [Option.some.injEq, List.cons.injEq, and_true]
    norm_num
    constructor <;> omega
  | a :: b :: c :: rest, h => by
    have ha : a < 256 := h a (by simp)
    have hb : b < 256 := h b (by simp)
    have hc : c < 256 := h c (by simp)
    have ih := b64DecodeChars_b64EncodeBytes rest fun x hx => h x (by simp [hx])
    simp only [b64EncodeBytes, b64DecodeChars]
    rw [b64Dec_b64Enc (a / 4) (by omega), b64Dec_b64Enc (a % 4 * 16 + b / 16) (by omega),
      b64Dec_b64Enc (b % 16 * 4 + c / 64) (by omega), b64Dec_b64Enc (c % 64) (by omega), ih]
    simp only [Option.some.injEq, List.cons.injEq, and_true]
    refine ⟨by omega, by omega, by omega⟩

/-- Helper: dropping the prefix of the forwarding URI yields exactly the
encoded segment. -/
lemma forwardUriSegment_forwardUri (bs : List Nat) :
    forwardUriSegment (forwardUri bs) = b64EncodeBytes bs := by
  show (("proxly://open/" ++ btoaBytes bs).data).drop 14 = b64EncodeBytes bs
  rw [String.data_append]
  exact List.drop_left' rfl

/-- C4: building the forwarding URI proxly://open/ followed by the standard
base64 of the URL bytes, then base64-decoding the segment after the
prefix, yields the original URL bytes exactly, for every byte sequence —
in particular for URLs containing the reserved characters and
percent-encoded or UTF-8 unicode path segments. -/
theorem forwardUri_base64_roundtrip (urlBytes : List Nat)
    (h : ∀ b ∈ urlBytes, b < 256) :
    b64DecodeChars (forwardUriSegment (forwardUri urlBytes)) = some urlBytes := by
  rw [forwardUriSegment_forwardUri]
  exact b64DecodeChars_b64EncodeBytes urlBytes h

/-- Witness for C4: the byte sequence of a URL containing a question mark,
an ampersand, a percent sign and a two-byte UTF-8 character (the bytes of
https udarail a?b&c%20 with an e-acute, 63 = question mark, 38 = ampersand,
37 = percent, 195 169 = UTF-8 e-acute) round-trips through the forwarding
URI. -/
theorem forwardUri_base64_roundtrip_witness :
    b64DecodeChars (forwardUriSegment (forwardUri
        [104, 116, 116, 112, 115, 58, 47, 47, 101, 120, 46, 99, 111, 109, 47,
         195, 169, 63, 97, 61, 49, 38, 98, 61, 37, 50, 48]))
      = some [104, 116, 116, 112, 115, 58, 47, 47, 101, 120, 46, 99, 111, 109, 47,
         195, 169, 63, 97, 61, 49, 38, 98, 61, 37, 50, 48] :=
  forwardUri_base64_roundtrip
    [104, 116, 116, 112, 115, 58, 47, 47, 101, 120, 46, 99, 111, 109, 47,
     195, 169, 63, 97, 61, 49, 38, 98, 61, 37, 50, 48] (by decide)
